import Mathlib

/-!
Formal model of the TDA financial time-series pipeline (`tda_pipeline.py`):
three scikit-learn-style stages `DataSelector`, `RipsPersistence` and `LPNorm`.

Conventions of the embedding:
* A pandas `DataFrame` of the time series is a `List (List ℚ)` of rows.
* `X.iloc[a:b].values` for `0 ≤ a ≤ b` is `(X.drop a).take (b - a)` — this has
  exactly Python's clipping slice semantics for non-negative bounds.
* The gudhi engine (`RipsComplex`, simplex trees, persistence) is an external
  black box; it is abstracted as a structure of functions `RipsEngine`, and the
  pipeline code is modelled as orchestration over an arbitrary such engine.
* `joblib.Parallel` is modelled from the spec as an order-preserving map.
* numpy arrays fed to `LPNorm` are 1-D or 2-D (`NDArray`); `np.linalg.norm`
  with `ord=1`/`ord=2` follows the numpy documentation for each shape.
-/

namespace TDA

/-- Python slice `X[a:b]` (also `DataFrame.iloc[a:b]`) for non-negative bounds
`a ≤ b`: drop the first `a` elements, then take `b - a`.  Clips at the end of
the list exactly as Python does. -/
def ilocSlice {α : Type} (X : List α) (a b : ℕ) : List α :=
  (X.drop a).take (b - a)

/-- Configuration of `DataSelector` (`tda_pipeline.py`, `__init__`):
`start`, `end`, window width `w`, and the unused-by-`transform` `n_jobs`. -/
structure DataSelector where
  start : ℕ := 0
  «end» : ℕ := 250
  w : ℕ := 80
  n_jobs : Option ℕ := none
deriving DecidableEq

/-- `DataSelector.fit`: `return self`. -/
def DataSelector.fit (s : DataSelector) (_X : List (List ℚ)) (_Y : Option Unit) :
    DataSelector :=
  s

/-- `DataSelector.transform`:
`[X.iloc[(idx - self.w):idx].values for idx in range(self.start+self.w, self.end)]`.
`range(a, b)` is the list `[a, a+1, ..., b-1]`, empty when `b ≤ a`, i.e.
`List.range' a (b - a)`. -/
def DataSelector.transform (s : DataSelector) (X : List (List ℚ)) :
    List (List (List ℚ)) :=
  (List.range' (s.start + s.w) (s.«end» - (s.start + s.w))).map
    (fun idx => ilocSlice X (idx - s.w) idx)

theorem length_ilocSlice {α : Type} (X : List α) (a b : ℕ)
    (hab : a ≤ b) (hb : b ≤ X.length) :
    (ilocSlice X a b).length = b - a := by
  simp only [ilocSlice, List.length_take, List.length_drop]
  omega

theorem mem_of_mem_ilocSlice {α : Type} {X : List α} {a b : ℕ} {r : α}
    (h : r ∈ ilocSlice X a b) : r ∈ X :=
  List.drop_subset a X (List.take_subset _ _ h)

/-- Claim C1: for a table of `d`-columned rows and a range that is valid for
the table (`end ≤ #rows`), `DataSelector.transform` is empty when
`end ≤ start + w`, and otherwise produces exactly `end - start - w` windows,
the `i`-th being rows `[start + i, start + w + i)` (i.e. `[idx - w, idx)` for
`idx = start + w + i`), a matrix of shape `(w, d)`. -/
theorem C1_dataSelector_windows (s : DataSelector) (X : List (List ℚ)) (d : ℕ)
    (hd : ∀ r ∈ X, r.length = d) (hlen : s.«end» ≤ X.length) :
    (s.«end» ≤ s.start + s.w → s.transform X = []) ∧
    (s.start + s.w < s.«end» →
      (s.transform X).length = s.«end» - s.start - s.w ∧
      ∀ i, i < s.«end» - s.start - s.w →
        (s.transform X)[i]? =
            some (ilocSlice X (s.start + i) (s.start + s.w + i)) ∧
        (ilocSlice X (s.start + i) (s.start + s.w + i)).length = s.w ∧
        ∀ r ∈ ilocSlice X (s.start + i) (s.start + s.w + i), r.length = d) := by
  constructor
  · intro h
    have hz : s.«end» - (s.start + s.w) = 0 := by omega
    simp [DataSelector.transform, hz]
  · intro h
    constructor
    · simp only [DataSelector.transform, List.length_map, List.length_range']
      omega
    · intro i hi
      have hi' : i < s.«end» - (s.start + s.w) := by omega
      refine ⟨?_, ?_, ?_⟩
      · simp only [DataSelector.transform, List.getElem?_map,
          List.getElem?_range', hi', if_pos, one_mul, Option.map_some']
        rw [show s.start + s.w + i - s.w = s.start + i by omega]
      · have hl := length_ilocSlice X (s.start + i) (s.start + s.w + i)
          (by omega) (by omega)
        omega
      · intro r hr
        exact hd r (mem_of_mem_ilocSlice hr)

/-- Witness for C1 at a concrete table: 3 rows of 1 column, `start = 0`,
`end = 3`, `w = 1`, giving 2 windows `[[1]]` and `[[2]]`. -/
theorem C1_dataSelector_windows_witness :
    (DataSelector.transform ⟨0, 3, 1, none⟩ [[1], [2], [3]]).length = 3 - 0 - 1 := by
  have h := C1_dataSelector_windows ⟨0, 3, 1, none⟩ [[1], [2], [3]] 1
    (by decide) (by decide)
  exact (h.2 (by decide)).1

/-- The external gudhi topology engine, abstracted as a record of operations
(spec §6 treats it as a black box).  `Point` is the point type, `Tree` the
state of a simplex tree before persistence, `PTree` its state after
`compute_persistence`, `Diagram` a persistence diagram.
* `createSimplexTree pts mel k` — `RipsComplex(points=pts, max_edge_length=mel).create_simplex_tree(max_dimension=k)`;
* `collapseEdges` — `stree.collapse_edges()`;
* `expansion t k` — `stree.expansion(k)`;
* `computePersistence t f mp` — `stree.compute_persistence(homology_coeff_field=f, min_persistence=mp)`;
* `intervalsInDimension p d` — `stree.persistence_intervals_in_dimension(d)`. -/
structure RipsEngine (Point Tree PTree Diagram : Type) where
  createSimplexTree : List Point → WithTop ℚ → ℕ → Tree
  collapseEdges : Tree → Tree
  expansion : Tree → ℕ → Tree
  computePersistence : Tree → ℕ → ℚ → PTree
  intervalsInDimension : PTree → ℤ → Diagram

/-- Configuration of `RipsPersistence` (`tda_pipeline.py`, `__init__`), stored
verbatim with the source's defaults.  `max_edge_length` is `float("inf")` by
default, modelled as `⊤ : WithTop ℚ`. -/
structure RipsPersistence where
  max_rips_dimension : ℕ := 2
  max_edge_length : WithTop ℚ := ⊤
  collapse_edges : Bool := true
  max_persistence_dimension : ℕ := 0
  only_this_dim : ℤ := -1
  homology_coeff_field : ℕ := 11
  min_persistence : ℚ := 0
  n_jobs : Option ℕ := none

/-- `RipsPersistence.fit`: `return self`. -/
def RipsPersistence.fit {P : Type} (s : RipsPersistence) (_X : List (List P))
    (_Y : Option Unit) : RipsPersistence :=
  s

/-- `RipsPersistence.__transform points`: build the Rips complex (collapse
branch: 1-skeleton, `collapse_edges`, `expansion(max_rips_dimension)`; else
direct `create_simplex_tree(max_dimension=max_rips_dimension)`), run
`compute_persistence`, and return
`[persistence_intervals_in_dimension(dim) for dim in range(max_persistence_dimension + 1)]`. -/
def RipsPersistence.__transform {P T Q D : Type} (s : RipsPersistence)
    (eng : RipsEngine P T Q D) (points : List P) : List D :=
  let stree :=
    if s.collapse_edges then
      eng.expansion (eng.collapseEdges
        (eng.createSimplexTree points s.max_edge_length 1)) s.max_rips_dimension
    else
      eng.createSimplexTree points s.max_edge_length s.max_rips_dimension
  let pers := eng.computePersistence stree s.homology_coeff_field s.min_persistence
  (List.range (s.max_persistence_dimension + 1)).map
    (fun (dim : ℕ) => eng.intervalsInDimension pers (dim : ℤ))

/-- `RipsPersistence.__transform_only_this_dim points`: same construction and
`compute_persistence` as `__transform`, but returns the single
`persistence_intervals_in_dimension(only_this_dim)`. -/
def RipsPersistence.__transform_only_this_dim {P T Q D : Type}
    (s : RipsPersistence) (eng : RipsEngine P T Q D) (points : List P) : D :=
  let stree :=
    if s.collapse_edges then
      eng.expansion (eng.collapseEdges
        (eng.createSimplexTree points s.max_edge_length 1)) s.max_rips_dimension
    else
      eng.createSimplexTree points s.max_edge_length s.max_rips_dimension
  let pers := eng.computePersistence stree s.homology_coeff_field s.min_persistence
  eng.intervalsInDimension pers s.only_this_dim

/-- Modelled from the spec: `joblib.Parallel(n_jobs=..., prefer="threads")`
applied to a generator of delayed calls.  The spec states "Aggregation
preserves input order (output index i corresponds to input point cloud i)
regardless of completion order", so the batch dispatch is modelled as an
order-preserving map of the task function over the task list (`n_jobs` and the
thread preference affect scheduling only). -/
def joblibParallel {α β : Type} (f : α → β) (xs : List α) : List β :=
  xs.map f

/-- `RipsPersistence.transform X`: if `only_this_dim == -1`, the per-dimension
list form (one `List D` per point cloud), else the single-diagram form (one
`D` per point cloud); both dispatched through `joblib.Parallel`.  The two
output shapes of the Python function are modelled as a sum type. -/
def RipsPersistence.transform {P T Q D : Type} (s : RipsPersistence)
    (eng : RipsEngine P T Q D) (X : List (List P)) :
    Sum (List (List D)) (List D) :=
  if s.only_this_dim = -1 then
    Sum.inl (joblibParallel (s.__transform eng) X)
  else
    Sum.inr (joblibParallel (s.__transform_only_this_dim eng) X)

/-- A concrete engine whose diagrams record the coefficient field passed to
`compute_persistence`; used to observe that configuration value downstream. -/
def coeffEngine : RipsEngine Unit Unit ℕ ℕ where
  createSimplexTree _ _ _ := ()
  collapseEdges _ := ()
  expansion _ _ := ()
  computePersistence _ f _ := f
  intervalsInDimension p _ := p

/-- A concrete engine whose diagrams record the homology dimension queried by
`persistence_intervals_in_dimension`; used to observe which dimensions the
pipeline extracts. -/
def dimEngine : RipsEngine Unit Unit Unit ℤ where
  createSimplexTree _ _ _ := ()
  collapseEdges _ := ()
  expansion _ _ := ()
  computePersistence _ _ _ := ()
  intervalsInDimension _ d := d

theorem length___transform {P T Q D : Type} (s : RipsPersistence)
    (eng : RipsEngine P T Q D) (points : List P) :
    (s.__transform eng points).length = s.max_persistence_dimension + 1 := by
  simp only [RipsPersistence.__transform, List.length_map, List.length_range]

theorem transform_eq_inl {P T Q D : Type} (s : RipsPersistence)
    (eng : RipsEngine P T Q D) (X : List (List P)) (hd : s.only_this_dim = -1) :
    s.transform eng X = Sum.inl (X.map (s.__transform eng)) := by
  simp only [RipsPersistence.transform, joblibParallel, if_pos hd]

theorem transform_eq_inr {P T Q D : Type} (s : RipsPersistence)
    (eng : RipsEngine P T Q D) (X : List (List P)) (hd : s.only_this_dim ≠ -1) :
    s.transform eng X = Sum.inr (X.map (s.__transform_only_this_dim eng)) := by
  simp only [RipsPersistence.transform, joblibParallel, if_neg hd]

/-- Claim C2: per point cloud, `RipsPersistence.transform` yields exactly
`max_persistence_dimension + 1` diagrams when `only_this_dim` is unset (the
sentinel `-1`), and exactly one diagram per cloud when it is set — the output
then being the single-diagram form, unaffected by any value of
`max_persistence_dimension`. -/
theorem C2_diagram_count {P T Q D : Type} (eng : RipsEngine P T Q D)
    (s : RipsPersistence) (X : List (List P)) :
    (s.only_this_dim = -1 →
      ∃ l : List (List D), s.transform eng X = Sum.inl l ∧
        l.length = X.length ∧
        ∀ ds ∈ l, ds.length = s.max_persistence_dimension + 1) ∧
    (s.only_this_dim ≠ -1 →
      ∃ l : List D, s.transform eng X = Sum.inr l ∧
        l.length = X.length ∧
        ∀ m : ℕ,
          RipsPersistence.transform { s with max_persistence_dimension := m }
            eng X = Sum.inr l) := by
  constructor
  · intro hd
    refine ⟨X.map (s.__transform eng), transform_eq_inl s eng X hd,
      List.length_map _ _, ?_⟩
    intro ds hds
    obtain ⟨pts, _, rfl⟩ := List.mem_map.mp hds
    exact length___transform s eng pts
  · intro hd
    refine ⟨X.map (s.__transform_only_this_dim eng),
      transform_eq_inr s eng X hd, List.length_map _ _, ?_⟩
    intro m
    exact transform_eq_inr { s with max_persistence_dimension := m } eng X hd

/-- Witness for C2 at a concrete engine and batch of one point cloud. -/
theorem C2_diagram_count_witness :
    ∃ l : List (List ℕ),
      RipsPersistence.transform {} coeffEngine [[()]] = Sum.inl l ∧
        l.length = 1 ∧ ∀ ds ∈ l, ds.length = 1 :=
  (C2_diagram_count coeffEngine {} [[()]]).1 rfl

/-- Counterexample to claim C3: `homology_coeff_field = 4` is not prime, yet
`RipsPersistence` raises no configuration error — the batch transform runs to
completion and hands the value `4` unvalidated to the engine's
`compute_persistence` (observed here through `coeffEngine`, whose diagrams
report the coefficient field they were computed with). -/
theorem C3_no_prime_validation_cex :
    ¬ Nat.Prime 4 ∧
      RipsPersistence.transform { homology_coeff_field := 4 } coeffEngine
          [[()], [()]] = Sum.inl [[4], [4]] :=
  ⟨by decide, rfl⟩

/-- Claim C3 (amended): `RipsPersistence` performs no primality validation of
`homology_coeff_field`; whatever value it holds — prime or not — is passed
through unchanged to the engine's `compute_persistence` on both the
all-dimensions and the single-dimension path, and results are returned
normally.  (Primality is only a documented requirement on the caller.) -/
theorem C3_coeff_field_passthrough (s : RipsPersistence) (pts : List Unit) :
    s.__transform coeffEngine pts =
        List.replicate (s.max_persistence_dimension + 1) s.homology_coeff_field ∧
      s.__transform_only_this_dim coeffEngine pts = s.homology_coeff_field := by
  constructor
  · simp [RipsPersistence.__transform, coeffEngine, List.map_const']
  · rfl

/-- The contract of the engine's edge collapse (spec §6 and glossary: collapse
removes redundant edges "without altering the resulting persistent
homology"): for every point cloud, threshold, expansion dimension, coefficient
field, pruning threshold and homology dimension, the collapse-then-expand path
yields the same persistence intervals as direct construction. -/
def CollapsePreserves {P T Q D : Type} (eng : RipsEngine P T Q D) : Prop :=
  ∀ (points : List P) (mel : WithTop ℚ) (k f : ℕ) (mp : ℚ) (d : ℤ),
    eng.intervalsInDimension
        (eng.computePersistence
          (eng.expansion (eng.collapseEdges (eng.createSimplexTree points mel 1)) k)
          f mp) d =
      eng.intervalsInDimension
        (eng.computePersistence (eng.createSimplexTree points mel k) f mp) d

theorem __transform_collapse_congr {P T Q D : Type} (eng : RipsEngine P T Q D)
    (h : CollapsePreserves eng) (s : RipsPersistence) (pts : List P) :
    RipsPersistence.__transform { s with collapse_edges := true } eng pts =
      RipsPersistence.__transform { s with collapse_edges := false } eng pts := by
  show (List.range (s.max_persistence_dimension + 1)).map
      (fun (dim : ℕ) => eng.intervalsInDimension
        (eng.computePersistence
          (eng.expansion (eng.collapseEdges
            (eng.createSimplexTree pts s.max_edge_length 1)) s.max_rips_dimension)
          s.homology_coeff_field s.min_persistence) (dim : ℤ)) =
    (List.range (s.max_persistence_dimension + 1)).map
      (fun (dim : ℕ) => eng.intervalsInDimension
        (eng.computePersistence
          (eng.createSimplexTree pts s.max_edge_length s.max_rips_dimension)
          s.homology_coeff_field s.min_persistence) (dim : ℤ))
  exact List.map_congr_left fun dim _ =>
    h pts s.max_edge_length s.max_rips_dimension s.homology_coeff_field
      s.min_persistence (dim : ℤ)

theorem __transform_only_collapse_congr {P T Q D : Type}
    (eng : RipsEngine P T Q D) (h : CollapsePreserves eng)
    (s : RipsPersistence) (pts : List P) :
    RipsPersistence.__transform_only_this_dim { s with collapse_edges := true }
        eng pts =
      RipsPersistence.__transform_only_this_dim { s with collapse_edges := false }
        eng pts := by
  show eng.intervalsInDimension
      (eng.computePersistence
        (eng.expansion (eng.collapseEdges
          (eng.createSimplexTree pts s.max_edge_length 1)) s.max_rips_dimension)
        s.homology_coeff_field s.min_persistence) s.only_this_dim =
    eng.intervalsInDimension
      (eng.computePersistence
        (eng.createSimplexTree pts s.max_edge_length s.max_rips_dimension)
        s.homology_coeff_field s.min_persistence) s.only_this_dim
  exact h pts s.max_edge_length s.max_rips_dimension s.homology_coeff_field
    s.min_persistence s.only_this_dim

/-- Claim C6: for an engine whose edge collapse preserves persistent homology
(the engine's documented contract), running `RipsPersistence` with
`collapse_edges = true` produces exactly the same batch result as with
`collapse_edges = false`, every other parameter held fixed. -/
theorem C6_collapse_edges_equiv {P T Q D : Type} (eng : RipsEngine P T Q D)
    (h : CollapsePreserves eng) (s : RipsPersistence) (X : List (List P)) :
    RipsPersistence.transform { s with collapse_edges := true } eng X =
      RipsPersistence.transform { s with collapse_edges := false } eng X := by
  by_cases hd : s.only_this_dim = -1
  · rw [transform_eq_inl { s with collapse_edges := true } eng X hd,
      transform_eq_inl { s with collapse_edges := false } eng X hd]
    exact congrArg Sum.inl
      (List.map_congr_left fun pts _ => __transform_collapse_congr eng h s pts)
  · rw [transform_eq_inr { s with collapse_edges := true } eng X hd,
      transform_eq_inr { s with collapse_edges := false } eng X hd]
    exact congrArg Sum.inr
      (List.map_congr_left fun pts _ => __transform_only_collapse_congr eng h s pts)

/-- Witness for C6: `coeffEngine` satisfies the collapse contract, and the two
construction paths give equal results on a concrete batch. -/
theorem C6_collapse_edges_equiv_witness :
    RipsPersistence.transform { collapse_edges := true } coeffEngine [[()]] =
      RipsPersistence.transform { collapse_edges := false } coeffEngine [[()]] :=
  C6_collapse_edges_equiv coeffEngine (fun _ _ _ _ _ _ => rfl) {} [[()]]

/-- Claim C7: the batch result preserves input order — on either branch the
output is the sequential map of the per-cloud computation over the input
list, so output slot `i` holds exactly the result for input cloud `i`
(`joblib.Parallel`'s order preservation is part of the dispatch model). -/
theorem C7_order_preserved {P T Q D : Type} (eng : RipsEngine P T Q D)
    (s : RipsPersistence) (X : List (List P)) :
    (s.only_this_dim = -1 →
      ∃ l : List (List D), s.transform eng X = Sum.inl l ∧
        ∀ i : ℕ, l[i]? = (X[i]?).map (s.__transform eng)) ∧
    (s.only_this_dim ≠ -1 →
      ∃ l : List D, s.transform eng X = Sum.inr l ∧
        ∀ i : ℕ, l[i]? = (X[i]?).map (s.__transform_only_this_dim eng)) := by
  constructor
  · intro hd
    exact ⟨X.map (s.__transform eng), transform_eq_inl s eng X hd,
      fun i => List.getElem?_map _ _ _⟩
  · intro hd
    exact ⟨X.map (s.__transform_only_this_dim eng), transform_eq_inr s eng X hd,
      fun i => List.getElem?_map _ _ _⟩

/-- Witness for C7 on a concrete two-cloud batch. -/
theorem C7_order_preserved_witness :
    ∃ l : List (List ℕ),
      RipsPersistence.transform {} coeffEngine [[()], []] = Sum.inl l ∧
        ∀ i : ℕ, l[i]? = (([[()], []] : List (List Unit))[i]?).map
          (RipsPersistence.__transform {} coeffEngine) :=
  (C7_order_preserved coeffEngine {} [[()], []]).1 rfl

/-- Claim C8: when `only_this_dim` is a dimension `d` with
`0 ≤ d ≤ max_persistence_dimension`, the single diagram of the
only-this-dimension path is exactly entry `d` of the all-dimensions path:
both build the identical complex and persistence state and differ only in the
extraction step. -/
theorem C8_only_dim_refines_all_dims {P T Q D : Type} (eng : RipsEngine P T Q D)
    (s : RipsPersistence) (pts : List P) (d : ℕ)
    (h1 : s.only_this_dim = (d : ℤ)) (h2 : d ≤ s.max_persistence_dimension) :
    (s.__transform eng pts)[d]? =
      some (s.__transform_only_this_dim eng pts) := by
  have hd : d < s.max_persistence_dimension + 1 := by omega
  simp only [RipsPersistence.__transform, RipsPersistence.__transform_only_this_dim,
    List.getElem?_map, List.getElem?_range, hd, if_pos, Option.map_some', h1]

/-- Witness for C8 at `only_this_dim = 0`, `max_persistence_dimension = 0`. -/
theorem C8_only_dim_refines_all_dims_witness :
    (RipsPersistence.__transform { only_this_dim := 0 } coeffEngine
        ([] : List Unit))[0]? =
      some (RipsPersistence.__transform_only_this_dim { only_this_dim := 0 }
        coeffEngine ([] : List Unit)) :=
  C8_only_dim_refines_all_dims coeffEngine { only_this_dim := 0 } [] 0 rfl
    (by decide)

/-- Claim C9: `transform` tests `only_this_dim` against the sentinel `-1`
exactly: `-1` selects the per-dimension list form, while every other value —
including other negative, invalid dimensions — takes the single-dimension
path; on that path the dimension handed to
`persistence_intervals_in_dimension` is `only_this_dim` itself (observed
through `dimEngine`, whose diagrams report the queried dimension), hence it is
never `-1`. -/
theorem C9_sentinel_dispatch (s : RipsPersistence) (X : List (List Unit)) :
    (s.only_this_dim = -1 →
      s.transform dimEngine X = Sum.inl (X.map (s.__transform dimEngine))) ∧
    (s.only_this_dim ≠ -1 →
      s.transform dimEngine X =
          Sum.inr (X.map (fun (_ : List Unit) => s.only_this_dim)) ∧
        ∀ dg ∈ X.map (fun (_ : List Unit) => s.only_this_dim), dg ≠ -1) := by
  constructor
  · intro hd
    exact transform_eq_inl s dimEngine X hd
  · intro hd
    refine ⟨transform_eq_inr s dimEngine X hd, ?_⟩
    intro dg hdg
    obtain ⟨pts, _, rfl⟩ := List.mem_map.mp hdg
    exact hd

/-- Witness for C9 at the invalid negative value `only_this_dim = -2`: the
single-dimension path is taken and dimension `-2` is queried. -/
theorem C9_sentinel_dispatch_witness :
    RipsPersistence.transform { only_this_dim := -2 } dimEngine [[()]] =
      Sum.inr [-2] :=
  ((C9_sentinel_dispatch { only_this_dim := -2 } [[()]]).2 (by decide)).1

/-- A numpy array as fed to `LPNorm`: 1-D (a landscape, flattened) or 2-D
(e.g. an `(n, 2)` diagram array), with rational entries.  A numpy array
carries its shape, so `mat` records the column count explicitly — the rows
alone cannot determine it when there are no rows (a zero-length `(0, 2)`
diagram array is `mat 2 []`, distinct from the `(0, 0)` array `mat 0 []`). -/
inductive NDArray : Type where
  | vec : List ℚ → NDArray
  | mat : ℕ → List (List ℚ) → NDArray
deriving DecidableEq

/-- The exact value of a successful `np.linalg.norm(x, ord=2)`, kept in
symbolic form because it is irrational in general: for a 1-D array it is the
square root of the rational radicand carried by `sqrtOf` (the sum of squared
entries); for a 2-D array of `c` columns and rows `m` it is the spectral norm
(largest singular value) carried by `spectralOf c m`.  Since `q ↦ √q` is
injective on non-negative rationals, equalities between `sqrtOf` values
decide equalities between the corresponding norms. -/
inductive Norm2Result : Type where
  | sqrtOf : ℚ → Norm2Result
  | spectralOf : ℕ → List (List ℚ) → Norm2Result
deriving DecidableEq

/-- The message of the `ValueError` numpy raises when `amax` reduces an empty
array (no identity for `max`), as met below by the matrix norms on zero-size
inputs. -/
def zeroSizeReductionMsg : String :=
  "zero-size array to reduction operation maximum which has no identity"

/-- Sum of absolute values of column `j` of a matrix given as a list of rows
(entries of rows shorter than `j+1` read as `0`; the pipeline's matrices are
rectangular).  The sum over zero rows is `0`, as in numpy, where `add.reduce`
has identity `0`. -/
def colAbsSum (m : List (List ℚ)) (j : ℕ) : ℚ :=
  (m.map (fun r => |r.getD j 0|)).sum

/-- Modelled from the numpy documentation and source of `np.linalg.norm` with
`ord=1`: for a 1-D array, `sum(abs(x))` (defined — `0.0` — even on length 0);
for a 2-D array of `c` columns, the induced matrix 1-norm
`max(sum(abs(x), axis=0))`, i.e. the maximum absolute column sum, where the
outer `max` over the `c` column sums raises `ValueError` when `c = 0` (a
zero-size reduction).  For `c ≥ 1` the column sums are non-negative, so the
fold with initial value `0` is their maximum. -/
def npNormOrd1 : NDArray → Except String ℚ
  | .vec v => .ok ((v.map (fun x => |x|)).sum)
  | .mat c m =>
      if c = 0 then .error zeroSizeReductionMsg
      else .ok (((List.range c).map (colAbsSum m)).foldr max 0)

/-- Modelled from the numpy documentation and source of `np.linalg.norm` with
`ord=2`: for a 1-D array, the Euclidean norm `sqrt(sum(x**2))` (represented
by its radicand; defined — `0.0` — even on length 0); for a 2-D array,
`amax(svd(x, compute_uv=False))`, the spectral norm (represented
symbolically), where the number of singular values is `min(rows, cols)`, so
the `amax` raises `ValueError` when the array has zero rows or zero columns
(a zero-size reduction). -/
def npNormOrd2 : NDArray → Except String Norm2Result
  | .vec v => .ok (.sqrtOf ((v.map (fun x => x * x)).sum))
  | .mat c m =>
      if m.length = 0 ∨ c = 0 then .error zeroSizeReductionMsg
      else .ok (.spectralOf c m)

/-- Configuration of `LPNorm` (`tda_pipeline.py`, `__init__`): only `n_jobs`,
unused by `transform`. -/
structure LPNorm where
  n_jobs : Option ℕ := none
deriving DecidableEq

/-- `LPNorm.fit`: `return self`. -/
def LPNorm.fit (s : LPNorm) (_X : List NDArray) (_Y : Option Unit) : LPNorm :=
  s

/-- The body of `LPNorm.transform`'s list comprehension, evaluated left to
right: for each landscape, `np.linalg.norm(·, ord=1)` then
`np.linalg.norm(·, ord=2)`; the first `ValueError` raised aborts the whole
comprehension (and hence the batch). -/
def lpnormItems : List NDArray → Except String (List (ℚ × Norm2Result))
  | [] => .ok []
  | landscape :: rest => do
      let l1 ← npNormOrd1 landscape
      let l2 ← npNormOrd2 landscape
      let tail ← lpnormItems rest
      pure ((l1, l2) :: tail)

/-- `LPNorm.transform`:
`[[np.linalg.norm(landscape, ord=1), np.linalg.norm(landscape, ord=2)] for landscape in X]`,
a fallible computation since the matrix norms raise on zero-size arrays. -/
def LPNorm.transform (_s : LPNorm) (X : List NDArray) :
    Except String (List (ℚ × Norm2Result)) :=
  lpnormItems X

/-- All entries of an array in row order (used only to express the claim's
formulas). -/
def NDArray.entries : NDArray → List ℚ
  | .vec v => v
  | .mat _ m => m.flatten

/-- The claim's stated L1 value: the sum of absolute values of all entries. -/
def claimedL1 (a : NDArray) : ℚ :=
  ((a.entries).map (fun x => |x|)).sum

/-- The claim's stated L2 value: the Euclidean norm, i.e. the square root of
the sum of all squared entries (represented by its radicand). -/
def claimedL2 (a : NDArray) : Norm2Result :=
  .sqrtOf (((a.entries).map (fun x => x * x)).sum)

theorem transform_vecs_ok (s : LPNorm) (vs : List (List ℚ)) :
    s.transform (vs.map NDArray.vec) =
      Except.ok (vs.map fun v =>
        (claimedL1 (NDArray.vec v), claimedL2 (NDArray.vec v))) := by
  induction vs with
  | nil => rfl
  | cons v rest ih =>
      simp only [LPNorm.transform, List.map_cons, lpnormItems] at ih ⊢
      rw [ih]
      rfl

/-- Counterexample to claim C4: on the 2-D diagram array `[[1,0],[0,1]]` the
code's first component is the matrix 1-norm `1` (maximum absolute column
sum), not the claimed sum of absolute values `2`, and its second component is
the spectral norm, not the square root of the sum of squares. -/
theorem C4_lpnorm_cex :
    LPNorm.transform {} [NDArray.mat 2 [[1, 0], [0, 1]]] =
        Except.ok [(1, Norm2Result.spectralOf 2 [[1, 0], [0, 1]])] ∧
      claimedL1 (NDArray.mat 2 [[1, 0], [0, 1]]) = 2 ∧
      (1 : ℚ) ≠ 2 := by
  refine ⟨?_, ?_, by norm_num⟩
  · have hn1 : npNormOrd1 (NDArray.mat 2 [[1, 0], [0, 1]]) = Except.ok 1 := by
      have h0 : colAbsSum [[1, 0], [0, 1]] 0 = 1 := by
        norm_num [colAbsSum]
      have h1 : colAbsSum [[1, 0], [0, 1]] 1 = 1 := by
        norm_num [colAbsSum, List.getD]
      simp only [npNormOrd1]
      norm_num [List.range_succ, h0, h1, max_def]
    simp only [LPNorm.transform, lpnormItems, hn1]
    rfl
  · simp only [claimedL1, NDArray.entries, List.flatten, List.map_cons,
      List.map_nil, List.append_nil, List.nil_append]
    norm_num

/-- Claim C4 (amended): on every 1-D batch, `LPNorm.transform` succeeds and
returns per item the pair of the claimed entrywise formulas — the sum of
absolute values and the square root of the sum of squared entries.  (On 2-D
items numpy instead computes the induced matrix norms — maximum absolute
column sum and spectral norm — so the entrywise formulas hold only for 1-D
inputs.) -/
theorem C4_lpnorm_vectors (s : LPNorm) (vs : List (List ℚ)) :
    s.transform (vs.map NDArray.vec) =
      Except.ok (vs.map fun v =>
        (claimedL1 (NDArray.vec v), claimedL2 (NDArray.vec v))) :=
  transform_vecs_ok s vs

/-- Counterexample to claim C5: a zero-length `(0, 2)` array — the shape of
an empty persistence diagram — does not yield `(0.0, 0.0)`: the ord-2 matrix
norm's `amax` over the empty set of singular values raises `ValueError`, so
the batch transform fails instead of returning a pair. -/
theorem C5_empty_matrix_raises_cex :
    LPNorm.transform {} [NDArray.mat 2 []] =
      Except.error zeroSizeReductionMsg := rfl

/-- Claim C5 (amended): an empty 1-D input array anywhere in a batch of 1-D
arrays yields the pair `(0.0, 0.0)` for that item (`√0 = 0`) without error,
with the rest of the batch unaffected; a zero-length 2-D array instead raises
numpy's zero-size-reduction `ValueError` (in the ord-2 norm, and in the ord-1
norm too when the array has zero columns), failing the whole batch. -/
theorem C5_empty_array_zero_norms (s : LPNorm) (pre post : List (List ℚ)) :
    s.transform (pre.map NDArray.vec ++ NDArray.vec [] :: post.map NDArray.vec) =
      Except.ok
        ((pre.map fun v => (claimedL1 (NDArray.vec v), claimedL2 (NDArray.vec v))) ++
          ((0 : ℚ), Norm2Result.sqrtOf 0) ::
            (post.map fun v =>
              (claimedL1 (NDArray.vec v), claimedL2 (NDArray.vec v)))) := by
  have h := transform_vecs_ok s (pre ++ [] :: post)
  simp only [List.map_append, List.map_cons] at h
  exact h

/-- Claim C10: for each of the three stages, `fit` returns the component
itself — a value equal to the input configuration in every field — and, being
a pure function, performs no other state change. -/
theorem C10_fit_noop :
    (∀ (s : DataSelector) (X : List (List ℚ)) (Y : Option Unit), s.fit X Y = s) ∧
      (∀ (P : Type) (s : RipsPersistence) (X : List (List P)) (Y : Option Unit),
        s.fit X Y = s) ∧
      (∀ (s : LPNorm) (X : List NDArray) (Y : Option Unit), s.fit X Y = s) :=
  ⟨fun _ _ _ => rfl, fun _ _ _ _ => rfl, fun _ _ _ => rfl⟩

end TDA
